import Mathlib

/-!
Verification development for the ParallelDev repository: a shallow embedding
of the repository's conflict-classification rules, task lifecycle, worker
notification scripts, configuration template, login/auth services, and
(where the repository only specifies them in prose) spec-modelled versions
of the TaskGraph, ConflictResolver and WorkerSession operations, together
with theorems settling the frozen claims about them.
-/

namespace ParallelDev

/-! ## String utilities used by the embeddings -/

/-- Containment of a character list inside another (substring on char lists). -/
def listInfix (needle : List Char) : List Char → Bool
  | [] => needle.isEmpty
  | c :: rest => needle.isPrefixOf (c :: rest) || listInfix needle rest

/-- Lower-case a character list (ASCII case folding, as the `/i` regex flag). -/
def lowerChars (l : List Char) : List Char :=
  l.map Char.toLower

/-- `containsStr hay needle` : does `hay` contain `needle` as a substring. -/
def containsStr (hay needle : String) : Bool :=
  listInfix needle.data hay.data

/-- `containsStrCI hay needle` : case-insensitive substring containment
(`needle` is given lower-case). -/
def containsStrCI (hay needle : String) : Bool :=
  listInfix needle.data (lowerChars hay.data)

/-- Accumulator walk keeping the characters seen since the last `/`. -/
def basenameAux : List Char → List Char → List Char
  | acc, [] => acc.reverse
  | _, '/' :: rest => basenameAux [] rest
  | acc, c :: rest => basenameAux (c :: acc) rest

/-- Last path component of a `/`-separated path. -/
def basename (path : String) : String :=
  ⟨basenameAux [] path.data⟩

/-! ## Conflict classification (conflict-resolution skill, part_005)

The decision flow `决策流程` classifies a conflicting file path:
lock file → level 1 (regenerate); config file → level 1 (keep ours);
security-sensitive → level 3 (human); otherwise ordinary code → level 2 (AI).
-/

/-- Lock files auto-resolved at level 1 (`package-lock.json`, `yarn.lock`,
`pnpm-lock.yaml` in the Level-1 table). -/
def LOCK_FILES : List String :=
  ["package-lock.json", "yarn.lock", "pnpm-lock.yaml"]

/-- Config files auto-resolved at level 1 by keeping ours
(`.prettierrc`, `.eslintrc`, `tsconfig.json` in the Level-1 table). -/
def CONFIG_FILES : List String :=
  [".prettierrc", ".eslintrc", "tsconfig.json"]

/-- The case-insensitive security patterns of `SECURITY_PATTERNS`
(`/auth/i`, `/security/i`, `/permission/i`, `/credential/i`, `/secret/i`,
`/password/i`, `/token/i`); the case-sensitive `/\.env/` is handled
separately in `isSecuritySensitive`. -/
def SECURITY_PATTERNS_CI : List String :=
  ["auth", "security", "permission", "credential", "secret", "password", "token"]

def isLockFile (path : String) : Bool :=
  LOCK_FILES.contains (basename path)

def isConfigFile (path : String) : Bool :=
  CONFIG_FILES.contains (basename path)

/-- A path matches `SECURITY_PATTERNS`: one of the case-insensitive patterns
occurs in the lower-cased path, or `.env` occurs literally. -/
def isSecuritySensitive (path : String) : Bool :=
  SECURITY_PATTERNS_CI.any (fun p => containsStrCI path p)
    || containsStr path ".env"

/-- Conflict levels assigned by the decision flow of part_005, in the order
the flow checks them: lock file, then config file, then security-sensitive,
then ordinary code. -/
def classifyLevel (path : String) : Nat :=
  if isLockFile path then 1
  else if isConfigFile path then 1
  else if isSecuritySensitive path then 3
  else 2

/-- The `type` field of the `Conflict` interface in part_005. -/
inductive ConflictType where
  | lock
  | config
  | code
  | security
deriving DecidableEq

/-- Conflict type assigned alongside the level by the same decision flow. -/
def classifyType (path : String) : ConflictType :=
  if isLockFile path then .lock
  else if isConfigFile path then .config
  else if isSecuritySensitive path then .security
  else .code

/-! ## Login API: User model (src/src/models/User.ts) -/

/-- `UserInfo` (src/src/types, part_000): user data without sensitive fields. -/
structure UserInfo where
  id : String
  username : String
  email : String
  createdAt : Nat
deriving DecidableEq

/-- `User` entity (src/src/models/User.ts); `Date` fields are modelled as
`Nat` timestamps. -/
structure User where
  id : String
  username : String
  email : String
  passwordHash : String
  createdAt : Nat
  updatedAt : Nat
deriving DecidableEq

/-- `toUserInfo` (src/src/models/User.ts): strips sensitive data. -/
def toUserInfo (user : User) : UserInfo :=
  { id := user.id
    username := user.username
    email := user.email
    createdAt := user.createdAt }

/-! ## Login API: AuthService (src/src/services/AuthService.ts)

The service receives a `UserStore` and a `PasswordVerifier` by dependency
injection; they are modelled as function arguments. `authenticateTraced`
additionally records every invocation of the password verifier (as the
`(password, hash)` argument pairs), so that non-invocation is provable.
-/

/-- `LoginRequest` (src/src/types, part_000). -/
structure LoginRequest where
  username : String
  password : String
deriving DecidableEq

/-- `AuthResult` (src/src/services/AuthService.ts); the absent fields of the
TypeScript object literals are `none`. -/
structure AuthResult where
  success : Bool
  user : Option User := none
  error : Option String := none
deriving DecidableEq

/-- `AuthService.authenticate`, instrumented with the list of calls made to
the injected password verifier. Mirrors the source: look up the user by
username; if absent return `用户不存在`; else verify the password against the
stored hash; on mismatch return `密码错误`; on match return the stored user. -/
def authenticateTraced (findByUsername : String → Option User)
    (verify : String → String → Bool) (credentials : LoginRequest) :
    AuthResult × List (String × String) :=
  match findByUsername credentials.username with
  | none => ({ success := false, error := some "用户不存在" }, [])
  | some user =>
    if verify credentials.password user.passwordHash then
      ({ success := true, user := some user },
        [(credentials.password, user.passwordHash)])
    else
      ({ success := false, error := some "密码错误" },
        [(credentials.password, user.passwordHash)])

/-- `AuthService.authenticate` result. -/
def authenticate (findByUsername : String → Option User)
    (verify : String → String → Bool) (credentials : LoginRequest) : AuthResult :=
  (authenticateTraced findByUsername verify credentials).1

/-! ## Theorems for C1 (conflict classification precedence) -/

/-- C1, as stated, is false on the code: `src/auth/package-lock.json` matches
the security pattern `/auth/i`, yet the decision flow of part_005 tests the
lock-file rule first and assigns level 1, not 3. -/
theorem c1_security_precedence_counterexample :
    isSecuritySensitive "src/auth/package-lock.json" = true
      ∧ classifyLevel "src/auth/package-lock.json" = 1 := by
  constructor <;> decide

/-- C1 (amended): a conflicting resource path matching the security-sensitive
pattern set is assigned level 3 regardless of the diff content (the classifier
only reads the path), provided the path is not classified as a lock file or a
config file first — those two checks precede the security check in the
decision flow of part_005. -/
theorem c1_security_forces_level3 (path : String)
    (hsec : isSecuritySensitive path = true)
    (hlock : isLockFile path = false)
    (hconf : isConfigFile path = false) :
    classifyLevel path = 3 := by
  unfold classifyLevel
  rw [hsec, hlock, hconf]
  rfl

/-- Witness for `c1_security_forces_level3` at the concrete path
`src/auth/token.ts`. -/
theorem c1_security_forces_level3_witness :
    classifyLevel "src/auth/token.ts" = 3 :=
  c1_security_forces_level3 "src/auth/token.ts" (by decide) (by decide) (by decide)

/-! ## Theorems for C9 (AuthService.authenticate) -/

/-- C9: if the user store returns `none` the result is
`{success: false, error: 用户不存在}` and the password verifier is never
invoked (empty call trace); if the store returns a user and the verifier
rejects the password against the stored hash, the result is
`{success: false, error: 密码错误}`; if the verifier accepts, the result is
`{success: true}` carrying exactly the stored user. -/
theorem c9_authenticate_cases (findByUsername : String → Option User)
    (verify : String → String → Bool) (credentials : LoginRequest) :
    (findByUsername credentials.username = none →
      authenticate findByUsername verify credentials
          = { success := false, error := some "用户不存在" }
        ∧ (authenticateTraced findByUsername verify credentials).2 = [])
    ∧ (∀ u, findByUsername credentials.username = some u →
        verify credentials.password u.passwordHash = false →
        authenticate findByUsername verify credentials
          = { success := false, error := some "密码错误" })
    ∧ (∀ u, findByUsername credentials.username = some u →
        verify credentials.password u.passwordHash = true →
        authenticate findByUsername verify credentials
          = { success := true, user := some u }) := by
  refine ⟨fun hnone => ?_, fun u hu hv => ?_, fun u hu hv => ?_⟩
  · constructor <;> simp [authenticate, authenticateTraced, hnone]
  · simp [authenticate, authenticateTraced, hu, hv]
  · simp [authenticate, authenticateTraced, hu, hv]

/-- The single user of the demo store below. -/
def demoAlice : User :=
  { id := "u1", username := "alice", email := "alice@example.com",
    passwordHash := "hash-1", createdAt := 10, updatedAt := 20 }

/-- A one-user store used to witness the authentication theorem. -/
def demoStore : String → Option User := fun name =>
  if name = "alice" then some demoAlice else none

/-- A verifier accepting exactly the pair (correct-pw, hash-1), used to
witness the authentication theorem. -/
def demoVerify : String → String → Bool := fun password hash =>
  password = "correct-pw" && hash = "hash-1"

/-- Witness for `c9_authenticate_cases`: the three branches at concrete
credentials against `demoStore` and `demoVerify`. -/
theorem c9_authenticate_cases_witness :
    (authenticate demoStore demoVerify { username := "bob", password := "x" }
        = { success := false, error := some "用户不存在" }
      ∧ (authenticateTraced demoStore demoVerify
          { username := "bob", password := "x" }).2 = [])
    ∧ authenticate demoStore demoVerify
        { username := "alice", password := "wrong" }
        = { success := false, error := some "密码错误" }
    ∧ authenticate demoStore demoVerify
        { username := "alice", password := "correct-pw" }
        = { success := true, user := some demoAlice } := by
  refine ⟨(c9_authenticate_cases demoStore demoVerify _).1 (by decide),
    (c9_authenticate_cases demoStore demoVerify _).2.1 demoAlice (by decide) (by decide),
    (c9_authenticate_cases demoStore demoVerify _).2.2 demoAlice (by decide) (by decide)⟩

/-! ## Theorems for C10 (toUserInfo noninterference) -/

/-- C10: `toUserInfo` depends only on `id`, `username`, `email`, `createdAt`:
two users agreeing on those four fields (but possibly differing in
`passwordHash` or `updatedAt`) map to the same `UserInfo`, and the output is
exactly those four fields (never the password hash). -/
theorem c10_toUserInfo_noninterference (u1 u2 : User)
    (hid : u1.id = u2.id) (hname : u1.username = u2.username)
    (hmail : u1.email = u2.email) (hcre : u1.createdAt = u2.createdAt) :
    toUserInfo u1 = toUserInfo u2
      ∧ toUserInfo u1 = { id := u1.id, username := u1.username,
                          email := u1.email, createdAt := u1.createdAt } := by
  constructor
  · simp [toUserInfo, hid, hname, hmail, hcre]
  · rfl

/-- Witness for `c10_toUserInfo_noninterference`: two concrete users agreeing
on the four public fields but differing in `passwordHash` and `updatedAt`. -/
theorem c10_toUserInfo_noninterference_witness :
    ({ id := "u1", username := "alice", email := "a@x", passwordHash := "h1",
       createdAt := 5, updatedAt := 6 : User }.passwordHash
      ≠ { id := "u1", username := "alice", email := "a@x", passwordHash := "h2",
          createdAt := 5, updatedAt := 9 : User }.passwordHash)
    ∧ toUserInfo { id := "u1", username := "alice", email := "a@x",
                   passwordHash := "h1", createdAt := 5, updatedAt := 6 }
      = toUserInfo { id := "u1", username := "alice", email := "a@x",
                     passwordHash := "h2", createdAt := 5, updatedAt := 9 } :=
  ⟨by decide,
    (c10_toUserInfo_noninterference _ _ rfl rfl rfl rfl).1⟩

/-! ## Task lifecycle (parallel-executor skill, part_007)

The lifecycle diagram `任务生命周期` and the trigger table `状态转换触发` use
exactly five statuses: PENDING, ASSIGNED, RUNNING, DONE, FAILED, with
transitions PENDING→ASSIGNED (worker assigned), ASSIGNED→RUNNING (worktree
created), RUNNING→DONE (success result), RUNNING→FAILED (error result or
timeout). The `TaskStatus` type below additionally carries the two statuses
named only by the claim/spec (`ready`, `cancelled`) so that the documented
machine can be compared with the claimed one; the documented machine never
enters or leaves them. -/

inductive TaskStatus where
  | pending
  | ready
  | assigned
  | running
  | done
  | failed
  | cancelled
deriving DecidableEq, Fintype

/-- The task state machine of part_007: exactly the four arrows of the
lifecycle diagram. -/
def lifecycleStep : TaskStatus → TaskStatus → Bool
  | .pending, .assigned => true
  | .assigned, .running => true
  | .running, .done => true
  | .running, .failed => true
  | _, _ => false

/-- The transition relation asserted by the claim (transcribed from the
claim's words, for comparison with `lifecycleStep`): pending → ready →
assigned → running → {done | failed}, plus any non-terminal state → cancelled. -/
def claimedLifecycleStep : TaskStatus → TaskStatus → Bool
  | .pending, .ready => true
  | .ready, .assigned => true
  | .assigned, .running => true
  | .running, .done => true
  | .running, .failed => true
  | .done, .cancelled => false
  | .failed, .cancelled => false
  | .cancelled, .cancelled => false
  | _, .cancelled => true
  | _, _ => false

/-! ## Theorems for C3 (task status state machine) -/

/-- C3, as stated, is false on the code: part_007's lifecycle moves a task
directly from PENDING to ASSIGNED, a transition the claimed machine forbids
(the claim only allows pending → ready and non-terminal → cancelled from
pending). -/
theorem c3_lifecycle_counterexample :
    lifecycleStep TaskStatus.pending TaskStatus.assigned = true
      ∧ claimedLifecycleStep TaskStatus.pending TaskStatus.assigned = false := by
  decide

/-- C3 (amended): the task statuses of part_007 are pending, assigned,
running, done and failed (no persisted ready status, no cancelled status),
and the only legal transitions are pending→assigned, assigned→running,
running→done and running→failed; done and failed are terminal and a task in
one of them never leaves it (no transition out of them exists, in particular
`ready` and `cancelled` are never entered or left). -/
theorem c3_lifecycle_exact :
    ∀ s t : TaskStatus, lifecycleStep s t
      = [(TaskStatus.pending, TaskStatus.assigned),
         (TaskStatus.assigned, TaskStatus.running),
         (TaskStatus.running, TaskStatus.done),
         (TaskStatus.running, TaskStatus.failed)].contains (s, t) := by
  decide

/-! ## Worker completion reporting (C6)

The repository's only executable delivery path for a completion result is the
`task-completed` notifier script (part_010): it posts to
`$PARALLELDEV_MASTER_URL/api/task-completed` only when both
`PARALLELDEV_MASTER_URL` and `PARALLELDEV_TASK_ID` are set, redirects all curl
output to /dev/null and masks a failing curl with `|| true`, so it always
exits 0 and surfaces nothing. The busy→idle / busy→error slot transition of
`reportCompletion` has no implementation in the repository. -/

/-- The three dispatch outcome statuses (`status: success|error|timeout`). -/
inductive DispatchStatus where
  | success
  | error
  | timeout
deriving DecidableEq

/-- Worker slot statuses of the WorkerPool state machine. -/
inductive SlotStatus where
  | created
  | idle
  | busy
  | error
  | recovering
  | dead
deriving DecidableEq

/-- Modelled from the spec: the repository has no WorkerPool implementation;
`reportCompletion(workerId, result)` applies the busy→idle transition on a
success result and busy→error on an error/timeout result (spec §4.3); other
slot states are untouched by completion reports. -/
def reportCompletionSlot (slot : SlotStatus) (result : DispatchStatus) : SlotStatus :=
  match slot, result with
  | .busy, .success => .idle
  | .busy, _ => .error
  | s, _ => s

/-- Environment variables read by the notifier scripts. -/
structure NotifyEnv where
  masterUrl : Option String
  taskId : Option String
  workerId : Option String
deriving DecidableEq

/-- Observable behaviour of one run of the notifier script: whether the
payload was delivered, the exit code, and the lines surfaced to the caller. -/
structure ScriptRun where
  posted : Bool
  exitCode : Nat
  surfaced : List String
deriving DecidableEq

/-- The `task-completed` notifier script (part_010): when both
`PARALLELDEV_MASTER_URL` and `PARALLELDEV_TASK_ID` are set it invokes curl
whose success is `curlDelivers`; all output goes to /dev/null and `|| true`
masks the exit status, so the run surfaces nothing and exits 0 in every case;
with either variable unset, nothing is posted at all. -/
def notifyTaskCompleted (env : NotifyEnv) (curlDelivers : Bool) : ScriptRun :=
  match env.masterUrl, env.taskId with
  | some _, some _ => { posted := curlDelivers, exitCode := 0, surfaced := [] }
  | _, _ => { posted := false, exitCode := 0, surfaced := [] }

/-! ## Theorems for C6 (completion results never silently dropped) -/

/-- C6, as stated, is false on the code: with the master URL and task id both
configured and the delivery (curl) failing, the task-completed notifier
script of part_010 posts nothing, exits 0 and surfaces no error — the
completion result is silently dropped. -/
theorem c6_notifier_counterexample :
    notifyTaskCompleted
        { masterUrl := some "http://master", taskId := some "task-1",
          workerId := some "worker-1" } false
      = { posted := false, exitCode := 0, surfaced := [] } := by
  decide

/-- C6 (amended): `reportCompletion` applies the busy→idle transition on a
success result and busy→error on error/timeout (modelled from the spec, the
pool is not implemented in the repository); delivery of the completion result
to the master is only best-effort: the notifier script posts exactly when the
master URL and task id are configured and curl succeeds, and in every case it
exits 0 and surfaces nothing, so a delivery failure is suppressed rather than
surfaced. -/
theorem c6_report_completion (result : DispatchStatus) (env : NotifyEnv)
    (curlDelivers : Bool) :
    reportCompletionSlot SlotStatus.busy result
        = (if result = DispatchStatus.success then SlotStatus.idle else SlotStatus.error)
      ∧ (notifyTaskCompleted env curlDelivers).exitCode = 0
      ∧ (notifyTaskCompleted env curlDelivers).surfaced = []
      ∧ (notifyTaskCompleted env curlDelivers).posted
          = (env.masterUrl.isSome && env.taskId.isSome && curlDelivers) := by
  obtain ⟨mu, ti, wi⟩ := env
  cases result <;> cases mu <;> cases ti <;> cases curlDelivers <;>
    simp [reportCompletionSlot, notifyTaskCompleted]

/-! ## Configuration (config template, part_002 lines 631-690) -/

inductive LogLevel where
  | debug
  | info
  | warn
  | error
deriving DecidableEq

structure GitConfig where
  mainBranch : String
  worktreeDir : String
deriving DecidableEq

/-- `Config` as defined by `ConfigSchema` in part_002; numbers are modelled
as `Int`. -/
structure Config where
  maxWorkers : Int
  timeout : Int
  retryCount : Int
  logLevel : LogLevel
  git : GitConfig
deriving DecidableEq

/-- `DEFAULT_CONFIG` from part_002. -/
def DEFAULT_CONFIG : Config :=
  { maxWorkers := 3
    timeout := 30000
    retryCount := 3
    logLevel := .info
    git := { mainBranch := "main", worktreeDir := ".worktrees" } }

/-- `Partial<Config>`: the optional overrides accepted by `loadConfig`.
The spread `{ ...DEFAULT_CONFIG, ...overrides }` replaces whole top-level
fields, so `git` is overridden as a whole. -/
structure PartialConfig where
  maxWorkers : Option Int := none
  timeout : Option Int := none
  retryCount : Option Int := none
  logLevel : Option LogLevel := none
  git : Option GitConfig := none
deriving DecidableEq

/-- The top-level spread merge of `loadConfig`. -/
def mergeConfig (overrides : PartialConfig) : Config :=
  { maxWorkers := overrides.maxWorkers.getD DEFAULT_CONFIG.maxWorkers
    timeout := overrides.timeout.getD DEFAULT_CONFIG.timeout
    retryCount := overrides.retryCount.getD DEFAULT_CONFIG.retryCount
    logLevel := overrides.logLevel.getD DEFAULT_CONFIG.logLevel
    git := overrides.git.getD DEFAULT_CONFIG.git }

/-- The bound checks of `ConfigSchema`: `maxWorkers` in 1..10, `timeout` at
least 1000, `retryCount` in 0..5 (`logLevel` and the `git` strings are
well-typed by construction). Returns the error messages, path-prefixed as in
`validateConfig`. -/
def configErrors (c : Config) : List String :=
  (if c.maxWorkers < 1 then ["maxWorkers: too small"] else [])
    ++ (if 10 < c.maxWorkers then ["maxWorkers: too big"] else [])
    ++ (if c.timeout < 1000 then ["timeout: too small"] else [])
    ++ (if c.retryCount < 0 then ["retryCount: too small"] else [])
    ++ (if 5 < c.retryCount then ["retryCount: too big"] else [])

/-- `validateConfig` from part_002: `{valid, errors}` via `safeParse`. -/
def validateConfig (c : Config) : Bool × List String :=
  ((configErrors c).isEmpty, configErrors c)

/-- `loadConfig` from part_002: merge the overrides over `DEFAULT_CONFIG`
and parse against the schema (`parse` throws on violation, modelled as
`Except.error`). -/
def loadConfig (overrides : PartialConfig) : Except (List String) Config :=
  let merged := mergeConfig overrides
  if (configErrors merged).isEmpty then .ok merged else .error (configErrors merged)

/-- The named options of `ConfigSchema` (the configuration surface defined by
the code), with nested `git` fields dot-qualified. -/
def configOptionNames : List String :=
  ["maxWorkers", "timeout", "retryCount", "logLevel",
   "git.mainBranch", "git.worktreeDir"]

/-! ## Theorems for C7 (configuration surface) -/

/-- C7, as stated, is false on the code: the configuration surface defined by
`ConfigSchema` in part_002 contains no heartbeat-interval or
heartbeat-timeout-threshold option at all, and only a single retry option
(`retryCount`), not separate worker-recovery and task-level retry budgets. -/
theorem c7_config_surface_counterexample :
    configOptionNames.all (fun n => !containsStrCI n "heartbeat") = true
      ∧ (configOptionNames.filter (fun n => containsStrCI n "retry")).length = 1 := by
  decide

/-- C7 (amended): the configuration options defined by the code are exactly
maxWorkers, timeout, retryCount, logLevel, git.mainBranch and git.worktreeDir,
each with an explicit default; `loadConfig` with no overrides returns
maxWorkers = 3, timeout = 30000, retryCount = 3, logLevel = info,
git.mainBranch = "main", git.worktreeDir = ".worktrees"; and `validateConfig`
reports invalid for values outside the declared bounds, in particular for
maxWorkers outside 1..10. -/
theorem c7_load_and_validate (c : Config)
    (hout : c.maxWorkers < 1 ∨ 10 < c.maxWorkers) :
    loadConfig {} = .ok DEFAULT_CONFIG
      ∧ loadConfig {} = .ok { maxWorkers := 3, timeout := 30000, retryCount := 3,
                              logLevel := .info,
                              git := { mainBranch := "main",
                                       worktreeDir := ".worktrees" } }
      ∧ (validateConfig c).1 = false := by
  refine ⟨rfl, rfl, ?_⟩
  unfold validateConfig configErrors
  rcases hout with h | h
  · rw [if_pos h]
    simp
  · rw [if_pos h]
    simp [List.isEmpty_eq_true]

/-- Witness for `c7_load_and_validate` at a config with `maxWorkers = 0`. -/
theorem c7_load_and_validate_witness :
    loadConfig {} = .ok DEFAULT_CONFIG
      ∧ loadConfig {} = .ok { maxWorkers := 3, timeout := 30000, retryCount := 3,
                              logLevel := .info,
                              git := { mainBranch := "main",
                                       worktreeDir := ".worktrees" } }
      ∧ (validateConfig { DEFAULT_CONFIG with maxWorkers := 0 }).1 = false :=
  c7_load_and_validate { DEFAULT_CONFIG with maxWorkers := 0 } (Or.inl (by decide))

/-! ## WorkerSession.dispatch (C5)

part_007's `状态检测` gives the outcome trichotomy for an in-session command:
`result.status === "success"` → task done, `result.status === "error"` → task
failed, and no output before the timeout → task hung. The dispatch operation
itself is not implemented in the repository. -/

/-- State of one worker session: whether the persistent session (tmux) is
alive and which command, if any, is in flight. -/
structure SessionState where
  sessionAlive : Bool
  inflight : Option String
deriving DecidableEq

/-- What the execution agent does with a dispatched command: it either yields
a structured result (`success` flag, output text) after `at_` time units, or
stays silent forever. -/
inductive AgentOutcome where
  | yields (success : Bool) (output : String) (at_ : Nat)
  | silent
deriving DecidableEq

/-- The `{status, output, duration}` record returned by dispatch. -/
structure DispatchResult where
  status : DispatchStatus
  output : String
  duration : Nat
deriving DecidableEq

/-- Modelled from the spec: the repository has no WorkerSession
implementation; `dispatch(task, promptOrCommand, timeout)` sends the command
into the session and waits: if the agent yields before the timeout the status
is success or error according to the agent's structured result (part_007
状态检测); if the timeout elapses first, the status is timeout and the
in-flight command is forcibly terminated — the session itself is left as it
was. -/
def dispatch (s : SessionState) (command : String) (timeoutMs : Nat)
    (outcome : AgentOutcome) : DispatchResult × SessionState :=
  let running : SessionState := { s with inflight := some command }
  match outcome with
  | .yields ok output t =>
    if t < timeoutMs then
      ({ status := if ok then .success else .error, output := output, duration := t },
        { running with inflight := none })
    else
      ({ status := .timeout, output := "", duration := timeoutMs },
        { running with inflight := none })
  | .silent =>
    ({ status := .timeout, output := "", duration := timeoutMs },
      { running with inflight := none })

/-! ## Theorems for C5 (dispatch outcome and timeout semantics) -/

/-- C5: every dispatch returns one of the three statuses success, error or
timeout together with output and duration — success/error exactly when the
agent yields its structured result before the timeout, timeout otherwise —
and the session always survives dispatch with the in-flight command cleared:
an elapsed timeout terminates only the command, never the session. -/
theorem c5_dispatch_semantics (s : SessionState) (command : String)
    (timeoutMs : Nat) (outcome : AgentOutcome) :
    ((dispatch s command timeoutMs outcome).2.sessionAlive = s.sessionAlive
        ∧ (dispatch s command timeoutMs outcome).2.inflight = none)
      ∧ (∀ ok output t, outcome = .yields ok output t → t < timeoutMs →
          (dispatch s command timeoutMs outcome).1
            = { status := if ok then .success else .error,
                output := output, duration := t })
      ∧ (∀ ok output t, outcome = .yields ok output t → timeoutMs ≤ t →
          (dispatch s command timeoutMs outcome).1
            = { status := .timeout, output := "", duration := timeoutMs })
      ∧ (outcome = .silent →
          (dispatch s command timeoutMs outcome).1
            = { status := .timeout, output := "", duration := timeoutMs }) := by
  refine ⟨?_, fun ok output t hy hlt => ?_, fun ok output t hy hge => ?_,
    fun hs => ?_⟩
  · cases outcome with
    | yields ok output t =>
      by_cases h : t < timeoutMs <;> simp [dispatch, h]
    | silent => simp [dispatch]
  · simp [dispatch, hy, hlt]
  · simp [dispatch, hy, Nat.not_lt.mpr hge]
  · simp [dispatch, hs]

/-- Witness for `c5_dispatch_semantics`: a live session with a command that
never yields; the dispatch times out, the command is cleared, and the session
stays alive. -/
theorem c5_dispatch_semantics_witness :
    ((dispatch { sessionAlive := true, inflight := none } "npm test" 30000
        AgentOutcome.silent).2.sessionAlive = true
      ∧ (dispatch { sessionAlive := true, inflight := none } "npm test" 30000
          AgentOutcome.silent).2.inflight = none)
    ∧ (dispatch { sessionAlive := true, inflight := none } "npm test" 30000
        AgentOutcome.silent).1
      = { status := .timeout, output := "", duration := 30000 } :=
  ⟨⟨(c5_dispatch_semantics _ "npm test" 30000 .silent).1.1,
    (c5_dispatch_semantics _ "npm test" 30000 .silent).1.2⟩,
    (c5_dispatch_semantics _ "npm test" 30000 .silent).2.2.2 rfl⟩

/-! ## ConflictResolver (C2, C4)

part_004 defines the `ConflictDetail` record and report format
(`status: resolved | pending | manual`, optional `resolution` with a
strategy), and part_005 the tiered strategies; the resolver itself is not
implemented in the repository and is modelled from the spec below, on top of
the real classification functions `classifyLevel`/`classifyType`. -/

/-- The `status` field of `ConflictDetail` (part_004). -/
inductive ConflictStatus where
  | resolved
  | pending
  | manual
deriving DecidableEq

/-- The `resolution` payload of `ConflictDetail` (part_004). -/
structure Resolution where
  strategy : String
  command : String
deriving DecidableEq

/-- `ConflictDetail` (part_004): one conflicting file in the report. -/
structure ConflictDetail where
  file : String
  level : Nat
  ctype : ConflictType
  status : ConflictStatus
  resolution : Option Resolution
deriving DecidableEq

/-- Modelled from the spec: the repository has no ConflictResolver
implementation. One conflicting path is resolved by the tiered strategy of
part_005/spec §4.5: level 1 is auto-resolved (lock files regenerated, config
files kept ours) and marked resolved with its strategy recorded; level 2
delegates to the AI capability `aiMerge` and must validate the candidate —
on success the merge is applied and recorded, on failure the conflict is
demoted to level 3; level 3 is never auto-applied: it is emitted with status
manual and no resolution for external human handling. -/
def resolveConflict (aiMerge : String → Option String) (path : String) :
    ConflictDetail :=
  if classifyLevel path = 1 then
    { file := path, level := 1, ctype := classifyType path,
      status := .resolved,
      resolution := some (if isLockFile path
        then { strategy := "regenerate", command := "npm install" }
        else { strategy := "keep-ours", command := "git checkout --ours" }) }
  else if classifyLevel path = 2 then
    match aiMerge path with
    | some merged =>
      { file := path, level := 2, ctype := classifyType path,
        status := .resolved,
        resolution := some { strategy := "ai-merge", command := merged } }
    | none =>
      { file := path, level := 3, ctype := classifyType path,
        status := .manual, resolution := none }
  else
    { file := path, level := 3, ctype := classifyType path,
      status := .manual, resolution := none }

/-- Modelled from the spec: the resolver's report covers every conflicting
path, in order. -/
def resolveAll (aiMerge : String → Option String) (paths : List String) :
    List ConflictDetail :=
  paths.map (resolveConflict aiMerge)

/-- The overall outcome of a merge operation given its conflict records. -/
inductive MergeOutcome where
  | complete
  | pending
deriving DecidableEq

/-- Modelled from the spec: the merge operation is blocked — its result is
pending — as long as some level-3 record has not been (externally) marked
resolved. -/
def mergeOutcome (records : List ConflictDetail) : MergeOutcome :=
  if records.any (fun r => r.level == 3 && !(r.status == ConflictStatus.resolved))
  then .pending else .complete

/-! ## Theorems for C2 (level 3 never auto-applied, merge blocked) -/

/-- C2: the resolver never marks a level-3 record resolved — every level-3
record it emits has status manual (escalated for human handling) — and for
any record set in which some level-3 record is not marked resolved, the
overall merge outcome is pending. -/
theorem c2_level3_blocks_merge (aiMerge : String → Option String)
    (paths : List String) (records : List ConflictDetail) :
    (∀ r ∈ resolveAll aiMerge paths, r.level = 3 → r.status = .manual)
      ∧ ((∃ r ∈ records, r.level = 3 ∧ r.status ≠ .resolved) →
          mergeOutcome records = .pending) := by
  constructor
  · intro r hr h3
    simp only [resolveAll, List.mem_map] at hr
    obtain ⟨p, _, rfl⟩ := hr
    unfold resolveConflict at h3 ⊢
    by_cases h1 : classifyLevel p = 1
    · simp [h1] at h3
    · by_cases h2 : classifyLevel p = 2
      · cases ham : aiMerge p <;> simp [h1, h2, ham] at h3 ⊢
      · simp [h1, h2]
  · intro ⟨r, hr, h3, hst⟩
    unfold mergeOutcome
    rw [if_pos]
    rw [List.any_eq_true]
    refine ⟨r, hr, ?_⟩
    rw [Bool.and_eq_true, beq_iff_eq, Bool.not_eq_true', beq_eq_false_iff_ne]
    exact ⟨h3, hst⟩

/-- Witness for `c2_level3_blocks_merge`: the Scenario-E merge with a
lock-file conflict and a security-sensitive conflict; the level-3 record on
`src/auth/token.ts` is emitted as manual and the merge outcome is pending. -/
theorem c2_level3_blocks_merge_witness :
    (∀ r ∈ resolveAll (fun _ => none) ["package-lock.json", "src/auth/token.ts"],
        r.level = 3 → r.status = .manual)
      ∧ mergeOutcome (resolveAll (fun _ => none)
          ["package-lock.json", "src/auth/token.ts"]) = .pending :=
  ⟨(c2_level3_blocks_merge (fun _ => none) ["package-lock.json", "src/auth/token.ts"]
      (resolveAll (fun _ => none) ["package-lock.json", "src/auth/token.ts"])).1,
    (c2_level3_blocks_merge (fun _ => none) ["package-lock.json", "src/auth/token.ts"]
      (resolveAll (fun _ => none) ["package-lock.json", "src/auth/token.ts"])).2
      (by decide)⟩

/-! ## Theorems for C4 (resolved requires a resolution strategy) -/

/-- C4: every record appearing in a resolution report with status resolved
carries a non-null resolution strategy. -/
theorem c4_resolved_has_strategy (aiMerge : String → Option String)
    (paths : List String) (r : ConflictDetail)
    (hr : r ∈ resolveAll aiMerge paths) (hres : r.status = .resolved) :
    r.resolution ≠ none := by
  simp only [resolveAll, List.mem_map] at hr
  obtain ⟨p, _, rfl⟩ := hr
  unfold resolveConflict at hres ⊢
  by_cases h1 : classifyLevel p = 1
  · simp [h1]
  · by_cases h2 : classifyLevel p = 2
    · cases ham : aiMerge p <;> simp [h1, h2, ham] at hres ⊢
    · simp [h1, h2] at hres

/-- Witness for `c4_resolved_has_strategy` at the resolved lock-file record
of the Scenario-E report. -/
theorem c4_resolved_has_strategy_witness :
    (resolveConflict (fun _ => none) "package-lock.json").resolution ≠ none :=
  c4_resolved_has_strategy (fun _ => none) ["package-lock.json", "src/auth/token.ts"]
    (resolveConflict (fun _ => none) "package-lock.json")
    (by decide) (by decide)

/-! ## TaskGraph (C8)

The TaskGraph is not implemented in the repository (spec §4.1 only); it is
modelled from the spec below. A task carries an id, a priority weight
(descending weight = higher priority), its dependency ids and its status;
`readyTasks` returns the pending tasks whose dependencies are all done,
sorted by descending priority weight and then ascending id; `validate`
performs a full cycle check, modelled as iterated elimination of tasks
without dependencies inside the remaining set (a Kahn-style sweep), failing
with `CyclicDependencyError` when a non-empty remainder cannot shrink. -/

/-- Modelled from the spec: one task of the graph (spec §3). -/
structure GTask where
  id : String
  priorityWeight : Nat
  dependencies : List String
  status : TaskStatus
deriving DecidableEq

/-- Is the dependency `d` satisfied in `g`: the task with id `d` has status
done. -/
def depDone (g : List GTask) (d : String) : Bool :=
  match g.find? (fun u => u.id == d) with
  | some u => u.status == TaskStatus.done
  | none => false

/-- A task is ready: pending, and every dependency is done. -/
def readyPred (g : List GTask) (t : GTask) : Bool :=
  (t.status == TaskStatus.pending) && t.dependencies.all (fun d => depDone g d)

/-- The deterministic report order of `readyTasks`: descending priority
weight, ties broken by ascending task id. -/
def readyLE (a b : GTask) : Prop :=
  b.priorityWeight < a.priorityWeight
    ∨ (a.priorityWeight = b.priorityWeight ∧ a.id ≤ b.id)

instance : DecidableRel readyLE := fun a b => by
  unfold readyLE
  infer_instance

instance : IsTotal GTask readyLE := ⟨by
  intro a b
  unfold readyLE
  rcases Nat.lt_trichotomy a.priorityWeight b.priorityWeight with h | h | h
  · exact Or.inr (Or.inl h)
  · rcases le_total a.id b.id with hi | hi
    · exact Or.inl (Or.inr ⟨h, hi⟩)
    · exact Or.inr (Or.inr ⟨h.symm, hi⟩)
  · exact Or.inl (Or.inl h)⟩

instance : IsTrans GTask readyLE := ⟨by
  intro a b c hab hbc
  unfold readyLE at hab hbc ⊢
  rcases hab with h1 | ⟨e1, i1⟩ <;> rcases hbc with h2 | ⟨e2, i2⟩
  · exact Or.inl (by omega)
  · exact Or.inl (by omega)
  · exact Or.inl (by omega)
  · exact Or.inr ⟨by omega, le_trans i1 i2⟩⟩

/-- Modelled from the spec: `readyTasks()` — all pending tasks with all
dependencies done, sorted deterministically by `readyLE`. -/
def readyTasks (g : List GTask) : List GTask :=
  List.insertionSort readyLE (g.filter (fun t => readyPred g t))

/-- A task is blocked within the set `g`: some dependency names the id of a
task still in `g`. -/
def blockedIn (g : List GTask) (t : GTask) : Bool :=
  t.dependencies.any (fun d => g.any (fun u => u.id == d))

/-- Kahn-style cycle sweep: repeatedly drop the tasks not blocked within the
remaining set; succeed when nothing remains, fail when a non-empty remainder
stops shrinking. -/
def kahnOk (g : List GTask) : Bool :=
  if g.isEmpty then true
  else if _h : (g.filter (fun t => blockedIn g t)).length < g.length then
    kahnOk (g.filter (fun t => blockedIn g t))
  else false
termination_by g.length

/-- Modelled from the spec: `validate()` — full cycle check, succeeding or
failing with `CyclicDependencyError`. -/
def validate (g : List GTask) : Except String Unit :=
  if kahnOk g then .ok () else .error "CyclicDependencyError"

/-- A list of tasks is topologically ordered when no task's dependencies name
the id of a task at its own position or later. -/
def topoOrdered : List GTask → Bool
  | [] => true
  | t :: rest =>
    (!t.dependencies.any (fun d => (t :: rest).any (fun u => u.id == d)))
      && topoOrdered rest

/-- A task set is cycle-free: some enumeration of it is topologically
ordered (equivalently, the dependency relation has no cycle). -/
def cycleFree (g : List GTask) : Prop :=
  ∃ l, List.Perm l g ∧ topoOrdered l = true

/-- Dropping one element strictly shrinks a filter. -/
theorem length_filter_lt_of_mem {α : Type} (p : α → Bool) :
    ∀ (l : List α) (x : α), x ∈ l → p x = false → (l.filter p).length < l.length := by
  intro l
  induction l with
  | nil =>
    intro x hx
    cases hx
  | cons a t ih =>
    intro x hx hpx
    rcases List.mem_cons.mp hx with rfl | hxt
    · rw [List.filter_cons, hpx]
      simp only [Bool.false_eq_true, if_false, List.length_cons]
      exact Nat.lt_succ_of_le (List.length_filter_le p t)
    · rw [List.filter_cons]
      by_cases hpa : p a = true
      · simp only [hpa, if_true, List.length_cons]
        exact Nat.succ_lt_succ (ih x hxt hpx)
      · simp only [hpa, if_false, List.length_cons]
        exact Nat.lt_succ_of_lt (ih x hxt hpx)

/-- Bool-valued `any` agrees on permuted lists. -/
theorem any_eq_of_perm {α : Type} {l1 l2 : List α} (h : List.Perm l1 l2)
    (f : α → Bool) : l1.any f = l2.any f := by
  rw [Bool.eq_iff_iff, List.any_eq_true, List.any_eq_true]
  exact ⟨fun ⟨x, hx, hfx⟩ => ⟨x, h.mem_iff.mp hx, hfx⟩,
    fun ⟨x, hx, hfx⟩ => ⟨x, h.mem_iff.mpr hx, hfx⟩⟩

/-- Topological order survives filtering. -/
theorem topoOrdered_filter (p : GTask → Bool) :
    ∀ l, topoOrdered l = true → topoOrdered (l.filter p) = true := by
  intro l
  induction l with
  | nil =>
    intro
    simp [topoOrdered]
  | cons t rest ih =>
    intro h
    rw [topoOrdered, Bool.and_eq_true] at h
    obtain ⟨h1, h2⟩ := h
    rw [List.filter_cons]
    by_cases hp : p t = true
    · rw [if_pos hp, topoOrdered, Bool.and_eq_true]
      refine ⟨?_, ih h2⟩
      rw [Bool.not_eq_true', List.any_eq_false] at h1 ⊢
      intro d hd
      have hfd := h1 d hd
      rw [List.any_cons, Bool.or_eq_true, not_or] at hfd ⊢
      refine ⟨hfd.1, fun hx => hfd.2 ?_⟩
      rw [List.any_eq_true] at hx ⊢
      obtain ⟨u, hu, hui⟩ := hx
      exact ⟨u, List.mem_of_mem_filter hu, hui⟩
    · rw [if_neg hp]
      exact ih h2

/-- In a non-empty cycle-free set some task is not blocked within the set. -/
theorem exists_unblocked_of_cycleFree (g : List GTask) (hne : g ≠ [])
    (hc : cycleFree g) : ∃ t ∈ g, blockedIn g t = false := by
  obtain ⟨l, hperm, htopo⟩ := hc
  cases l with
  | nil =>
    exact absurd (List.Perm.eq_nil hperm.symm) hne
  | cons t rest =>
    refine ⟨t, hperm.mem_iff.mp (List.mem_cons_self t rest), ?_⟩
    rw [topoOrdered, Bool.and_eq_true] at htopo
    have h1 := htopo.1
    rw [Bool.not_eq_true', List.any_eq_false] at h1
    unfold blockedIn
    rw [List.any_eq_false]
    intro d hd
    rw [← any_eq_of_perm hperm (fun u => u.id == d)]
    exact h1 d hd

/-- Length-bounded induction: a cycle-free task set passes the Kahn sweep. -/
theorem kahnOk_of_cycleFree_aux :
    ∀ (n : Nat) (g : List GTask), g.length ≤ n → cycleFree g → kahnOk g = true := by
  intro n
  induction n with
  | zero =>
    intro g hlen _
    have : g = [] := List.eq_nil_of_length_eq_zero (Nat.le_zero.mp hlen)
    subst this
    rw [kahnOk]
    rfl
  | succ n ih =>
    intro g hlen hc
    rw [kahnOk]
    cases hg : g with
    | nil => rfl
    | cons a as =>
      rw [← hg]
      have hne : g ≠ [] := by
        rw [hg]
        exact List.cons_ne_nil a as
      have hemp : g.isEmpty = false := by
        rw [hg]
        rfl
      rw [if_neg (by rw [hemp]; exact Bool.false_ne_true)]
      obtain ⟨t, htg, hbt⟩ := exists_unblocked_of_cycleFree g hne hc
      have hlt : (g.filter (fun u => blockedIn g u)).length < g.length :=
        length_filter_lt_of_mem _ g t htg hbt
      rw [dif_pos hlt]
      refine ih _ (by omega) ?_
      obtain ⟨l, hperm, htopo⟩ := hc
      exact ⟨l.filter (fun u => blockedIn g u), hperm.filter _,
        topoOrdered_filter _ l htopo⟩

/-- A cycle-free task set passes the Kahn sweep. -/
theorem kahnOk_of_cycleFree (g : List GTask) (hc : cycleFree g) :
    kahnOk g = true :=
  kahnOk_of_cycleFree_aux g.length g le_rfl hc

/-! ## Theorems for C8 (validate and initial readyTasks) -/

/-- C8: for every cycle-free task set (all statuses still pending, as at
graph build time), `validate` succeeds, and the first `readyTasks` call
returns exactly the tasks with no dependencies — as a list, a permutation of
them — sorted by descending priority weight with ties broken by ascending
task id. -/
theorem c8_validate_and_initial_ready (g : List GTask)
    (hpend : ∀ t ∈ g, t.status = TaskStatus.pending) (hc : cycleFree g) :
    validate g = Except.ok ()
      ∧ List.Perm (readyTasks g) (g.filter (fun t => t.dependencies.isEmpty))
      ∧ List.Sorted readyLE (readyTasks g) := by
  refine ⟨?_, ?_, List.sorted_insertionSort readyLE _⟩
  · unfold validate
    rw [kahnOk_of_cycleFree g hc]
    rfl
  · have hdd : ∀ d, depDone g d = false := by
      intro d
      unfold depDone
      cases hf : g.find? (fun u => u.id == d) with
      | none => rfl
      | some u =>
        show (u.status == TaskStatus.done) = false
        rw [hpend u (List.mem_of_find?_eq_some hf)]
        rfl
    have hfe : g.filter (fun t => readyPred g t)
        = g.filter (fun t => t.dependencies.isEmpty) := by
      apply List.filter_congr
      intro t ht
      unfold readyPred
      rw [hpend t ht]
      cases hdeps : t.dependencies with
      | nil => rfl
      | cons d ds => simp [List.all_cons, hdd]
    rw [readyTasks, hfe]
    exact List.perm_insertionSort readyLE _

/-- The Scenario-A style demo graph: task 1 with no dependencies, tasks 2
and 3 both depending on task 1, all pending. -/
def demoTasks : List GTask :=
  [{ id := "1", priorityWeight := 3, dependencies := [], status := .pending },
   { id := "2", priorityWeight := 2, dependencies := ["1"], status := .pending },
   { id := "3", priorityWeight := 2, dependencies := ["1"], status := .pending }]

/-- Witness for `c8_validate_and_initial_ready` on the demo graph. -/
theorem c8_validate_and_initial_ready_witness :
    (∀ t ∈ demoTasks, t.status = TaskStatus.pending)
      ∧ cycleFree demoTasks
      ∧ (validate demoTasks = Except.ok ()
          ∧ List.Perm (readyTasks demoTasks)
              (demoTasks.filter (fun t => t.dependencies.isEmpty))
          ∧ List.Sorted readyLE (readyTasks demoTasks)) :=
  ⟨by decide, ⟨demoTasks, List.Perm.refl _, by decide⟩,
    c8_validate_and_initial_ready demoTasks (by decide)
      ⟨demoTasks, List.Perm.refl _, by decide⟩⟩

end ParallelDev
